import Mathlib

/-!  Verification development for the cps-data tool server
     (src/mcp_cps_data/server.py).  The relational query guard, the
     relational executor, the semantic search pipeline and the tool
     dispatcher are embedded shallowly.  The external embedding model,
     vector index and reranker are modelled as parameters of the pipeline
     carrying the interface contract the code relies on. -/

/-- The single-quote character, U+0027. -/
def quoteChar : Char := Char.ofNat 39

/-- Characters removed by the Python str.strip method (ASCII whitespace). -/
def isPySpace (c : Char) : Bool :=
  c = ' ' || c = Char.ofNat 9 || c = Char.ofNat 10 || c = Char.ofNat 13 ||
    c = Char.ofNat 11 || c = Char.ofNat 12

/-- Python str.strip: remove leading and trailing whitespace. -/
def pyStrip (s : String) : String :=
  ⟨((s.data.dropWhile isPySpace).reverse.dropWhile isPySpace).reverse⟩

/-- Python str.upper restricted to ASCII, as applied to SQL query strings. -/
def pyUpper (s : String) : String := ⟨s.data.map Char.toUpper⟩

/-- Python str.startswith for a single candidate keyword. -/
def pyStartsWith (s p : String) : Bool := p.data.isPrefixOf s.data

/-- Helper for Python str.title: walks the characters tracking whether the
    previous character was a cased letter; a letter after a non-letter is
    upper-cased, any other letter is lower-cased. -/
def pyTitleAux : Bool → List Char → List Char
  | _, [] => []
  | prevCased, c :: cs =>
    if c.isAlpha then
      (if prevCased then c.toLower else c.toUpper) :: pyTitleAux true cs
    else
      c :: pyTitleAux false cs

/-- Python str.title restricted to ASCII letters. -/
def pyTitle (s : String) : String := ⟨pyTitleAux false s.data⟩

/-- Statement keywords rejected by the query guard (server.py line 31). -/
def denylist : List String := ["INSERT", "UPDATE", "DELETE", "CREATE", "DROP", "ALTER"]

/-- The guard inside CPSSqliteDB._execute_query: the stripped, upper-cased
    query must not start with any denylisted keyword. -/
def isRejected (q : String) : Bool :=
  denylist.any (fun kw => pyStartsWith (pyUpper (pyStrip q)) kw)

/-- QueryGuard classification tag. -/
inductive QueryClassification where
  | READ
  | REJECTED
deriving DecidableEq

/-- QueryGuard.classify, realised in the source by the startswith check on
    the stripped, upper-cased query string. -/
def classify (q : String) : QueryClassification :=
  if isRejected q then .REJECTED else .READ

/-- A relational row: ordered column name and value pairs, as produced from
    sqlite3.Row by the dict conversion at server.py line 40. -/
abbrev RelRecord := List (String × String)

/-- The structured store behind CPSSqliteDB, as the executor observes it: a
    query either yields rows or fails with a sqlite3 error message. -/
structure SqliteStore where
  run : String → Except String (List RelRecord)

/-- Connection-level events of one CPSSqliteDB._execute_query invocation. -/
inductive DbEvent where
  | connOpened
  | ran (q : String)
  | connClosed
deriving DecidableEq

/-- Errors raised by CPSSqliteDB._execute_query: the guard raises a
    ValueError, store failures surface as sqlite3 errors. -/
inductive QueryError where
  | valueError (msg : String)
  | storeError (msg : String)
deriving DecidableEq

/-- Result of one relational call together with its connection trace. -/
structure SqlOutcome where
  events : List DbEvent
  result : Except QueryError (List RelRecord)

/-- CPSSqliteDB._execute_query (server.py lines 29-45).  The guard runs
    before any connection is made; otherwise the connection is opened, the
    query executed, and the closing context manager closes the connection
    on the success path and on the exception path alike, with store errors
    re-raised to the caller. -/
def sqlRun (store : SqliteStore) (query : String) : SqlOutcome :=
  if isRejected query then
    ⟨[], .error (.valueError "Only read queries are allowed!!")⟩
  else
    match store.run query with
    | .ok rows => ⟨[.connOpened, .ran query, .connClosed], .ok rows⟩
    | .error e => ⟨[.connOpened, .ran query, .connClosed], .error (.storeError e)⟩

/-- Embeddings only flow from the embedder into the index lookup, so an
    integer vector is enough to model them. -/
abbrev Embedding := List Int

/-- Metadata of one indexed web-page chunk. -/
structure ChunkMetadata where
  school_name : String
  page_url : String
deriving DecidableEq

/-- One indexed web-page chunk: a text body with metadata. -/
structure Chunk where
  metadata : ChunkMetadata
  text : String
deriving DecidableEq

/-- The record shape built at server.py line 66. -/
structure SearchResult where
  school_name : String
  page_url : String
  content : String
deriving DecidableEq

/-- The external embedder, vector index and reranker, as SqliteLanceDB uses
    them.  The reranker is a black box that reorders its candidate list;
    rerank_mem records that contract (reordering introduces no new chunk). -/
structure SemanticEnv where
  encode : String → Embedding
  ann : Embedding → List Chunk
  rerank : String → List Chunk → List Chunk
  rerank_mem : ∀ q cs c, c ∈ rerank q cs → c ∈ cs

/-- Filter string built at server.py line 64 by interpolating the
    title-cased school name between single quotes. -/
def mkFilter (sn : String) : String :=
  "metadata.school_name = " ++ String.singleton quoteChar ++ pyTitle sn ++
    String.singleton quoteChar

/-- Strip an expected leading character sequence, returning the remainder. -/
def stripLead : List Char → List Char → Option (List Char)
  | [], rest => some rest
  | _ :: _, [] => none
  | p :: ps, c :: cs => if c = p then stripLead ps cs else none

/-- Read a single-quoted string literal body that must end the input:
    succeeds only when the remaining characters are a quote-free body
    followed by exactly one closing quote. -/
def readLit : List Char → Option (List Char)
  | [] => none
  | c :: cs =>
    if c = quoteChar then
      if cs = [] then some [] else none
    else
      (readLit cs).map (fun v => c :: v)

/-- The store side of the where clause: parse a filter of the exact shape
    metadata.school_name = quoted-literal; any other shape is an invalid
    filter.  This models the external filter language at the precision the
    spec gives it: an equality prefilter on one metadata field. -/
def parseEqFilter (s : String) : Option String :=
  match stripLead ("metadata.school_name = " ++ String.singleton quoteChar).data s.data with
  | none => none
  | some rest =>
    match readLit rest with
    | none => none
    | some v => some ⟨v⟩

/-- Result of one semantic search call together with the inputs sent to the
    embedder during the call. -/
structure SearchOutcome where
  encoderInputs : List String
  result : Except String (List SearchResult)

/-- Projection of a candidate chunk at server.py line 66. -/
def toSearchResult (c : Chunk) : SearchResult :=
  ⟨c.metadata.school_name, c.metadata.page_url, c.text⟩

/-- SqliteLanceDB._execute_query (server.py lines 59-66).  The question is
    embedded first, unconditionally (line 60).  With no usable school name
    the pipeline is nearest-neighbour retrieval, reranking by the question
    string, truncation to 10 and projection; with a school name the
    equality prefilter runs on the candidates before reranking and before
    the limit, per the pipeline order of spec section 4.3 and the external
    store contract of spec section 6.  A filter string the store cannot
    parse fails the call. -/
def lanceSearchRun (env : SemanticEnv) (question : String)
    (schoolName : Option String) : SearchOutcome :=
  let emb := env.encode question
  match schoolName with
  | none =>
    ⟨[question], .ok (((env.rerank question (env.ann emb)).take 10).map toSearchResult)⟩
  | some sn =>
    if pyStrip sn = "" then
      ⟨[question], .ok (((env.rerank question (env.ann emb)).take 10).map toSearchResult)⟩
    else
      match parseEqFilter (mkFilter sn) with
      | none => ⟨[question], .error ("Invalid filter: " ++ mkFilter sn)⟩
      | some v =>
        ⟨[question],
          .ok (((env.rerank question
              ((env.ann emb).filter (fun c => decide (c.metadata.school_name = v)))).take 10).map
            toSearchResult)⟩

/-- The candidate set handed to the reranker for a given request: all
    nearest-neighbour candidates, or only those passing the parsed equality
    prefilter; none when the filter string does not parse. -/
def survivingCandidates (env : SemanticEnv) (question : String)
    (schoolName : Option String) : Option (List Chunk) :=
  match schoolName with
  | none => some (env.ann (env.encode question))
  | some sn =>
    if pyStrip sn = "" then some (env.ann (env.encode question))
    else
      match parseEqFilter (mkFilter sn) with
      | none => none
      | some v =>
        some ((env.ann (env.encode question)).filter
          (fun c => decide (c.metadata.school_name = v)))

/-- One protocol content item; this server only ever produces text items. -/
structure Content where
  type : String
  text : String
deriving DecidableEq

/-- Arguments of a tool call, as far as this server reads them. -/
structure ToolArgs where
  query : Option String
  question : Option String
  school_name : Option String
deriving DecidableEq

/-- Rendering of a row list into the text payload.  Models the Python str
    conversion up to formatting, on which no property here depends. -/
def renderRows (rows : List RelRecord) : String :=
  String.intercalate "; "
    (rows.map (fun r => String.intercalate ", " (r.map (fun kv => kv.1 ++ "=" ++ kv.2))))

/-- Rendering of a search-result list into the text payload, likewise up to
    formatting. -/
def renderResults (rs : List SearchResult) : String :=
  String.intercalate "; "
    (rs.map (fun r => r.school_name ++ "|" ++ r.page_url ++ "|" ++ r.content))

/-- handle_call_tool (server.py lines 125-142): dispatch on the tool name;
    a missing argument mapping or key raises and is caught by the generic
    handler; sqlite errors get the Database error label, every other
    failure the Error label, and every path wraps its payload as one text
    content item. -/
def handleCallTool (store : SqliteStore) (env : SemanticEnv) (name : String)
    (arguments : Option ToolArgs) : List Content :=
  if name = "query_schools_and_neighborhoods" then
    match arguments with
    | none => [⟨"text", "Error: argument mapping is missing"⟩]
    | some args =>
      match args.query with
      | none => [⟨"text", "Error: missing argument query"⟩]
      | some q =>
        match (sqlRun store q).result with
        | .ok rows => [⟨"text", renderRows rows⟩]
        | .error (.storeError m) => [⟨"text", "Database error: " ++ m⟩]
        | .error (.valueError m) => [⟨"text", "Error: " ++ m⟩]
  else if name = "query_school_websites" then
    match arguments with
    | none => [⟨"text", "Error: argument mapping is missing"⟩]
    | some args =>
      match args.question with
      | none => [⟨"text", "Error: missing argument question"⟩]
      | some q =>
        match (lanceSearchRun env q args.school_name).result with
        | .ok rs => [⟨"text", renderResults rs⟩]
        | .error m => [⟨"text", "Error: " ++ m⟩]
  else
    [⟨"text", "Error: Unknown tool: " ++ name⟩]

/-- A store that answers every query with zero rows. -/
def emptyStore : SqliteStore := ⟨fun _ => .ok []⟩

/-- A chunk of the ABC HIGH SCHOOL website, school name stored in caps. -/
def abcChunk : Chunk := ⟨⟨"ABC HIGH SCHOOL", "https://abc.example/start"⟩, "Doors open at 8am."⟩

/-- A chunk of the XYZ ACADEMY website, school name stored in caps. -/
def xyzChunk : Chunk := ⟨⟨"XYZ ACADEMY", "https://xyz.example/hours"⟩, "Classes begin at 9am."⟩

/-- Concrete environment with one indexed chunk per school and an identity
    reranker, used to evaluate the pipeline on closed inputs. -/
def twoSchoolEnv : SemanticEnv :=
  ⟨fun _ => [0], fun _ => [abcChunk, xyzChunk], fun _ cs => cs, fun _ _ _ h => h⟩

/-- A chunk whose stored school name is already in title case. -/
def titleChunk : Chunk := ⟨⟨"Abc High School", "https://abc.example/bell"⟩, "The bell rings at 8am."⟩

/-- Concrete environment holding only the title-cased chunk. -/
def titleEnv : SemanticEnv :=
  ⟨fun _ => [0], fun _ => [titleChunk], fun _ cs => cs, fun _ _ _ h => h⟩

theorem stripLead_append (p r : List Char) : stripLead p (p ++ r) = some r := by
  induction p with
  | nil => rfl
  | cons c cs ih => simp [stripLead, ih]

theorem readLit_of_not_mem (v : List Char) (h : quoteChar ∉ v) :
    readLit (v ++ [quoteChar]) = some v := by
  induction v with
  | nil => simp [readLit]
  | cons c cs ih =>
    have hc : c ≠ quoteChar := fun hq => h (hq ▸ List.mem_cons_self c cs)
    have hcs : quoteChar ∉ cs := fun hq => h (List.mem_cons_of_mem c hq)
    simp [readLit, hc, ih hcs]

theorem readLit_of_mem (v : List Char) (h : quoteChar ∈ v) :
    readLit (v ++ [quoteChar]) = none := by
  induction v with
  | nil => cases h
  | cons c cs ih =>
    by_cases hc : c = quoteChar
    · subst hc; simp [readLit]
    · have hcs : quoteChar ∈ cs := by
        cases List.mem_cons.mp h with
        | inl h0 => exact absurd h0.symm hc
        | inr h0 => exact h0
      simp [readLit, hc, ih hcs]

/-- The interpolated filter string round-trips through the store parse
    exactly when the title-cased name is quote-free. -/
theorem parseEqFilter_mkFilter (sn : String) :
    parseEqFilter (mkFilter sn) =
      if quoteChar ∈ (pyTitle sn).data then none else some (pyTitle sn) := by
  have hdata :
      (mkFilter sn).data =
        ("metadata.school_name = " ++ String.singleton quoteChar).data ++
          ((pyTitle sn).data ++ [quoteChar]) := by
    simp [mkFilter, String.singleton]
  unfold parseEqFilter
  rw [hdata, stripLead_append]
  by_cases hq : quoteChar ∈ (pyTitle sn).data
  · simp only [readLit_of_mem _ hq, if_pos hq]
  · simp only [readLit_of_not_mem _ hq, if_neg hq]

/-- C1: a query whose stripped, upper-cased text starts with one of the six
    denylisted keywords is classified REJECTED, the call raises the
    ValueError to the caller, and no connection is opened and nothing is
    executed against the store. -/
theorem guard_rejects_denylisted (store : SqliteStore) (q kw : String)
    (hkw : kw ∈ denylist) (hpre : pyStartsWith (pyUpper (pyStrip q)) kw = true) :
    classify q = .REJECTED ∧ (sqlRun store q).events = [] ∧
      (sqlRun store q).result = .error (.valueError "Only read queries are allowed!!") := by
  have hrej : isRejected q = true := List.any_eq_true.mpr ⟨kw, hkw, hpre⟩
  refine ⟨?_, ?_, ?_⟩ <;> simp [classify, sqlRun, hrej]

/-- Closed instance of the C1 theorem on the DROP query of the spec
    scenario B. -/
theorem guard_rejects_denylisted_witness :
    classify "DROP TABLE schooltoneighborhood" = .REJECTED ∧
      (sqlRun emptyStore "DROP TABLE schooltoneighborhood").events = [] ∧
      (sqlRun emptyStore "DROP TABLE schooltoneighborhood").result =
        .error (.valueError "Only read queries are allowed!!") :=
  guard_rejects_denylisted emptyStore "DROP TABLE schooltoneighborhood" "DROP"
    (by decide) (by decide)

/-- C7: a query the guard accepts that runs successfully with zero matching
    rows yields the empty row list, not an error. -/
theorem empty_select_returns_empty (store : SqliteStore) (q : String)
    (hread : isRejected q = false) (hzero : store.run q = .ok []) :
    (sqlRun store q).result = .ok [] := by
  simp [sqlRun, hread, hzero]

/-- Closed instance of the C7 theorem on a SELECT query against the store
    with no matching rows. -/
theorem empty_select_returns_empty_witness :
    (sqlRun emptyStore "SELECT * FROM schooltoneighborhood").result = .ok [] :=
  empty_select_returns_empty emptyStore "SELECT * FROM schooltoneighborhood"
    (by decide) rfl

/-- C8: on a guard-accepted query the invocation opens exactly one
    connection, executes, and closes the connection before returning, on
    the success path and the failure path alike; the trace is balanced, so
    no connection outlives the call. -/
theorem connection_scoped_per_call (store : SqliteStore) (q : String)
    (hread : isRejected q = false) :
    (sqlRun store q).events = [.connOpened, .ran q, .connClosed] ∧
      (sqlRun store q).events.count .connOpened =
        (sqlRun store q).events.count .connClosed := by
  cases hrun : store.run q <;> simp [sqlRun, hread, hrun]

/-- Closed instance of the C8 theorem on an accepted query. -/
theorem connection_scoped_per_call_witness :
    (sqlRun emptyStore "SELECT 1").events = [.connOpened, .ran "SELECT 1", .connClosed] ∧
      (sqlRun emptyStore "SELECT 1").events.count .connOpened =
        (sqlRun emptyStore "SELECT 1").events.count .connClosed :=
  connection_scoped_per_call emptyStore "SELECT 1" (by decide)

/-- C9: a school name that strips to the empty string (so also the empty
    string itself) gives exactly the same outcome as an absent school
    name: no prefilter is applied. -/
theorem blank_school_name_ignored (env : SemanticEnv) (q sn : String)
    (h : pyStrip sn = "") :
    lanceSearchRun env q (some sn) = lanceSearchRun env q none := by
  simp [lanceSearchRun, h]

/-- Closed instance of the C9 theorem on a whitespace-only school name. -/
theorem blank_school_name_ignored_witness :
    lanceSearchRun twoSchoolEnv "q" (some "   ") = lanceSearchRun twoSchoolEnv "q" none :=
  blank_school_name_ignored twoSchoolEnv "q" "   " (by decide)

/-- C2 counterexample: with the question empty the embedder is still called
    with the empty string and the search succeeds with results; there is no
    fail-fast validation of the question. -/
theorem empty_question_forwarded_cex :
    (lanceSearchRun twoSchoolEnv "" none).encoderInputs = [""] ∧
      (lanceSearchRun twoSchoolEnv "" none).result =
        .ok [toSearchResult abcChunk, toSearchResult xyzChunk] :=
  ⟨rfl, rfl⟩

/-- C2 amended: the semantic search performs no validation of the question;
    for every environment and optional school name the question, even when
    empty, is passed verbatim as the sole embedder input. -/
theorem empty_question_forwarded (env : SemanticEnv) (schoolName : Option String) :
    (lanceSearchRun env "" schoolName).encoderInputs = [""] := by
  cases schoolName with
  | none => rfl
  | some sn =>
    by_cases h : pyStrip sn = ""
    · simp [lanceSearchRun, h]
    · cases hp : parseEqFilter (mkFilter sn) <;> simp [lanceSearchRun, h, hp]

/-- Case analysis of one semantic search call: either the surviving
    candidate set exists and the call succeeds with the projected first 10
    reranked candidates, or the filter fails to parse and the call errors. -/
theorem lanceSearchRun_cases (env : SemanticEnv) (q : String) (sn : Option String) :
    (∃ cands, survivingCandidates env q sn = some cands ∧
        (lanceSearchRun env q sn).result =
          .ok (((env.rerank q cands).take 10).map toSearchResult)) ∨
      (survivingCandidates env q sn = none ∧
        ∃ m, (lanceSearchRun env q sn).result = .error m) := by
  cases sn with
  | none => exact .inl ⟨env.ann (env.encode q), rfl, rfl⟩
  | some s =>
    by_cases hs : pyStrip s = ""
    · left
      refine ⟨env.ann (env.encode q), ?_, ?_⟩
      · simp [survivingCandidates, hs]
      · simp [lanceSearchRun, hs]
    · cases hp : parseEqFilter (mkFilter s) with
      | none =>
        right
        refine ⟨?_, "Invalid filter: " ++ mkFilter s, ?_⟩
        · simp [survivingCandidates, hs, hp]
        · simp [lanceSearchRun, hs, hp]
      | some v =>
        left
        refine ⟨(env.ann (env.encode q)).filter
          (fun c => decide (c.metadata.school_name = v)), ?_, ?_⟩
        · simp [survivingCandidates, hs, hp]
        · simp [lanceSearchRun, hs, hp]

/-- C3: a successful search returns at most 10 results, and they are exactly
    the projection of the first 10 candidates in the order the reranker
    produced on the surviving candidate set. -/
theorem search_reranked_top10 (env : SemanticEnv) (q : String)
    (schoolName : Option String) (rs : List SearchResult)
    (h : (lanceSearchRun env q schoolName).result = .ok rs) :
    rs.length ≤ 10 ∧ ∃ cands, survivingCandidates env q schoolName = some cands ∧
      rs = ((env.rerank q cands).take 10).map toSearchResult := by
  rcases lanceSearchRun_cases env q schoolName with ⟨cands, hc, hr⟩ | ⟨hc, m, hr⟩
  · rw [h] at hr
    have hrs : rs = ((env.rerank q cands).take 10).map toSearchResult :=
      Except.ok.inj hr
    constructor
    · rw [hrs, List.length_map, List.length_take]
      exact min_le_left _ _
    · exact ⟨cands, hc, hrs⟩
  · rw [h] at hr
    exact Except.noConfusion hr

/-- Closed instance of the C3 theorem on a concrete two-chunk index. -/
theorem search_reranked_top10_witness :
    ([toSearchResult abcChunk, toSearchResult xyzChunk] : List SearchResult).length ≤ 10 ∧
      ∃ cands, survivingCandidates twoSchoolEnv "q" none = some cands ∧
        [toSearchResult abcChunk, toSearchResult xyzChunk] =
          ((twoSchoolEnv.rerank "q" cands).take 10).map toSearchResult :=
  search_reranked_top10 twoSchoolEnv "q" none
    [toSearchResult abcChunk, toSearchResult xyzChunk] rfl

/-- C4 counterexample: the school name consisting of one space is non-empty,
    yet the filter branch is skipped and results from other schools are
    returned, with a school name differing from the title-cased input. -/
theorem filter_whitespace_cex :
    (" " : String) ≠ "" ∧
      (lanceSearchRun twoSchoolEnv "q" (some " ")).result =
        .ok [toSearchResult abcChunk, toSearchResult xyzChunk] ∧
      (toSearchResult abcChunk).school_name ≠ pyTitle " " :=
  ⟨by decide, rfl, by decide⟩

/-- C4 amended: when the school name is non-empty after stripping, every
    result of a successful search carries exactly the title-cased input as
    its school name. -/
theorem filter_exact_match (env : SemanticEnv) (q sn : String) (rs : List SearchResult)
    (hsn : pyStrip sn ≠ "") (h : (lanceSearchRun env q (some sn)).result = .ok rs)
    (r : SearchResult) (hr : r ∈ rs) : r.school_name = pyTitle sn := by
  cases hp : parseEqFilter (mkFilter sn) with
  | none =>
    have hres : (lanceSearchRun env q (some sn)).result =
        .error ("Invalid filter: " ++ mkFilter sn) := by
      simp [lanceSearchRun, hsn, hp]
    rw [hres] at h
    exact Except.noConfusion h
  | some v =>
    have hv : v = pyTitle sn := by
      have hpm := parseEqFilter_mkFilter sn
      rw [hp] at hpm
      by_cases hquote : quoteChar ∈ (pyTitle sn).data
      · rw [if_pos hquote] at hpm
        exact Option.noConfusion hpm
      · rw [if_neg hquote] at hpm
        exact Option.some.inj hpm
    have hres : (lanceSearchRun env q (some sn)).result =
        .ok (((env.rerank q ((env.ann (env.encode q)).filter
          (fun c => decide (c.metadata.school_name = v)))).take 10).map toSearchResult) := by
      simp [lanceSearchRun, hsn, hp]
    have hrs : rs = ((env.rerank q ((env.ann (env.encode q)).filter
        (fun c => decide (c.metadata.school_name = v)))).take 10).map toSearchResult :=
      Except.ok.inj (h.symm.trans hres)
    rw [hrs] at hr
    rcases List.mem_map.mp hr with ⟨c, hc, hcr⟩
    have hc2 := env.rerank_mem q _ c (List.mem_of_mem_take hc)
    have hc3 : c.metadata.school_name = v :=
      of_decide_eq_true (List.mem_filter.mp hc2).2
    rw [← hcr]
    show c.metadata.school_name = pyTitle sn
    exact hc3.trans hv

/-- Closed instance of the C4 amended theorem on an index whose stored name
    is already title-cased. -/
theorem filter_exact_match_witness :
    (toSearchResult titleChunk).school_name = pyTitle "abc high school" :=
  filter_exact_match titleEnv "q" "abc high school" [toSearchResult titleChunk]
    (by decide) rfl (toSearchResult titleChunk) (List.mem_singleton_self _)

/-- C5 counterexample: in the concrete scenario the title-cased filter is
    Abc High School, which exactly matches neither stored all-caps name, so
    the ABC chunk present among the candidates is not returned: the search
    yields the empty list. -/
theorem scenario_c_cex :
    abcChunk ∈ twoSchoolEnv.ann (twoSchoolEnv.encode "What time does school start?") ∧
      abcChunk.metadata.school_name = "ABC HIGH SCHOOL" ∧
      (lanceSearchRun twoSchoolEnv "What time does school start?"
          (some "abc high school")).result = .ok [] :=
  ⟨by decide, rfl, rfl⟩

/-- C5 amended: the scenario returns the empty result list, trivially of
    length at most 10, because the title-cased filter matches no stored
    all-caps name exactly. -/
theorem scenario_c_amended :
    (lanceSearchRun twoSchoolEnv "What time does school start?"
        (some "abc high school")).result = .ok ([] : List SearchResult) ∧
      ([] : List SearchResult).length ≤ 10 :=
  ⟨rfl, by decide⟩

/-- C10: when the title-cased school name contains a single quote, the
    interpolated filter string no longer parses as the intended equality
    predicate on that name, and the filtered search fails instead of
    filtering exactly. -/
theorem quote_breaks_filter (env : SemanticEnv) (q sn : String)
    (hsn : pyStrip sn ≠ "") (hq : quoteChar ∈ (pyTitle sn).data) :
    parseEqFilter (mkFilter sn) ≠ some (pyTitle sn) ∧
      ∃ m, (lanceSearchRun env q (some sn)).result = .error m := by
  have hp : parseEqFilter (mkFilter sn) = none := by
    rw [parseEqFilter_mkFilter, if_pos hq]
  refine ⟨by simp [hp], "Invalid filter: " ++ mkFilter sn, ?_⟩
  simp [lanceSearchRun, hsn, hp]

/-- Closed instance of the C10 theorem on a school name containing a single
    quote. -/
theorem quote_breaks_filter_witness :
    parseEqFilter (mkFilter ("o" ++ String.singleton quoteChar ++ "hare")) ≠
        some (pyTitle ("o" ++ String.singleton quoteChar ++ "hare")) ∧
      ∃ m, (lanceSearchRun twoSchoolEnv "q"
          (some ("o" ++ String.singleton quoteChar ++ "hare"))).result = .error m :=
  quote_breaks_filter twoSchoolEnv "q" ("o" ++ String.singleton quoteChar ++ "hare")
    (by decide) (by decide)

/-- C6: the dispatcher always answers with exactly one text content item,
    whatever the executors do, so no executor failure reaches the
    transport, store failures and generic failures share the same response
    shape, and an unknown tool name produces the labelled error text. -/
theorem dispatcher_single_text_item (store : SqliteStore) (env : SemanticEnv)
    (name : String) (arguments : Option ToolArgs) :
    ∃ t, handleCallTool store env name arguments = [⟨"text", t⟩] ∧
      (name ≠ "query_schools_and_neighborhoods" → name ≠ "query_school_websites" →
        t = "Error: Unknown tool: " ++ name) := by
  by_cases h1 : name = "query_schools_and_neighborhoods"
  · subst h1
    cases arguments with
    | none =>
      exact ⟨"Error: argument mapping is missing", by simp [handleCallTool],
        fun hn _ => absurd rfl hn⟩
    | some args =>
      cases hq : args.query with
      | none =>
        exact ⟨"Error: missing argument query", by simp [handleCallTool, hq],
          fun hn _ => absurd rfl hn⟩
      | some q =>
        cases hr : (sqlRun store q).result with
        | ok rows =>
          exact ⟨renderRows rows, by simp [handleCallTool, hq, hr],
            fun hn _ => absurd rfl hn⟩
        | error e =>
          cases e with
          | valueError m =>
            exact ⟨"Error: " ++ m, by simp [handleCallTool, hq, hr],
              fun hn _ => absurd rfl hn⟩
          | storeError m =>
            exact ⟨"Database error: " ++ m, by simp [handleCallTool, hq, hr],
              fun hn _ => absurd rfl hn⟩
  · by_cases h2 : name = "query_school_websites"
    · subst h2
      cases arguments with
      | none =>
        exact ⟨"Error: argument mapping is missing", by simp [handleCallTool],
          fun _ hn => absurd rfl hn⟩
      | some args =>
        cases hq : args.question with
        | none =>
          exact ⟨"Error: missing argument question", by simp [handleCallTool, hq],
            fun _ hn => absurd rfl hn⟩
        | some q =>
          cases hr : (lanceSearchRun env q args.school_name).result with
          | ok rs =>
            exact ⟨renderResults rs, by simp [handleCallTool, hq, hr],
              fun _ hn => absurd rfl hn⟩
          | error m =>
            exact ⟨"Error: " ++ m, by simp [handleCallTool, hq, hr],
              fun _ hn => absurd rfl hn⟩
    · exact ⟨"Error: Unknown tool: " ++ name, by simp [handleCallTool, h1, h2],
        fun _ _ => rfl⟩

/-- Closed instance of the C6 theorem on an unknown tool name. -/
theorem dispatcher_single_text_item_witness :
    ∃ t, handleCallTool emptyStore twoSchoolEnv "bogus" none = [⟨"text", t⟩] ∧
      (("bogus" : String) ≠ "query_schools_and_neighborhoods" →
        ("bogus" : String) ≠ "query_school_websites" →
        t = "Error: Unknown tool: " ++ "bogus") :=
  dispatcher_single_text_item emptyStore twoSchoolEnv "bogus" none
